import Mathlib

/-!
Shallow embedding of the j2cli command-line templating tool
(`j2cli/cli.py` and `j2cli/extras/filters.py`).

Conventions of the embedding:
* Python strings are Lean `String`s; byte output (`.encode('utf-8')`) is kept
  as a `String` (the byte encoding itself is not modelled).
* Fallible Python code is modelled with `Except`; a raised exception is an
  `Except.error` value carrying the exception's message or kind.
* The filesystem, as seen by `open` relative to the process's true working
  directory, is a function `String → Except Nat α`: `.error errno` models an
  `IOError` with an arbitrary OS error code, `.ok c` models a successful,
  complete (atomic) read of the file's contents.
* Template markup parsing belongs to the external Jinja2 dependency and is
  not re-implemented: a template file's contents are modelled directly as the
  parsed node list (literal text, variable accesses, filtered variable
  accesses), and the filesystem for `render_template` stores those.
-/

namespace J2cli

/-! ## The `docker_link` filter (`j2cli/extras/filters.py`, lines 9-41)

`docker_link` runs
`re.match(r'(?P<proto>.+)://(?P<addr>.+):(?P<port>.+)$', value)` and, on a
match, returns `format.format(**m.groupdict())`.  The regex is embedded
directly: `.` matches any character except a newline, `.+` is greedy with
backtracking (longest candidate first), and `$` matches at the end of the
input or just before a trailing newline. -/

/-- `.` in the Python regex: any character except a newline. -/
def dotc (c : Char) : Bool := c != '\n'

/-- Match `(?P<port>.+)$` against the whole of `cs`: the greedy `.+` takes the
maximal newline-free prefix, and `$` requires the remainder to be empty or a
single trailing newline. -/
def matchPortEnd (cs : List Char) : Option (List Char) :=
  let p := cs.takeWhile dotc
  if p.isEmpty then none
  else
    let r := cs.drop p.length
    if r = [] ∨ r = ['\n'] then some p else none

/-- Backtracking for `(?P<addr>.+):(?P<port>.+)$`: try the addr group at each
length from `n` downward (greedy), requiring a literal `':'` after it and the
port/end pattern on the rest. -/
def matchAddrPortGo (cs : List Char) : Nat → Option (List Char × List Char)
  | 0 => none
  | n + 1 =>
    match cs.drop (n + 1) with
    | ':' :: r =>
      match matchPortEnd r with
      | some p => some (cs.take (n + 1), p)
      | none => matchAddrPortGo cs n
    | _ => matchAddrPortGo cs n

/-- Match `(?P<addr>.+):(?P<port>.+)$` against the whole of `cs`. -/
def matchAddrPort (cs : List Char) : Option (List Char × List Char) :=
  matchAddrPortGo cs (cs.takeWhile dotc).length

/-- Backtracking for `(?P<proto>.+)://...`: try the proto group at each
length from `n` downward (greedy), requiring the literal `"://"` after it and
the addr/port pattern on the rest. -/
def matchProtoGo (cs : List Char) : Nat → Option (List Char × List Char × List Char)
  | 0 => none
  | n + 1 =>
    match cs.drop (n + 1) with
    | ':' :: '/' :: '/' :: r =>
      match matchAddrPort r with
      | some (a, p) => some (cs.take (n + 1), a, p)
      | none => matchProtoGo cs n
    | _ => matchProtoGo cs n

/-- `re.match(r'(?P<proto>.+)://(?P<addr>.+):(?P<port>.+)$', value)`:
`some (proto, addr, port)` on a match, `none` otherwise. -/
def matchLink (value : String) : Option (String × String × String) :=
  match matchProtoGo value.data (value.data.takeWhile dotc).length with
  | some (pr, a, po) => some (String.mk pr, String.mk a, String.mk po)
  | none => none

/-- Python `str.format` with keyword arguments, on the subset the code uses:
`\x7bname\x7d` fields are replaced via the lookup `d` (a missing name models
`KeyError` as `none`), doubled braces are literal braces, and a stray closing
brace or unterminated field models `ValueError` as `none`.  The `Nat` fuel is
initialised to the format string's length, which bounds the recursion. -/
def pyFormatGo (d : String → Option String) : Nat → List Char → Option (List Char)
  | _, [] => some []
  | 0, _ :: _ => none
  | fuel + 1, '\x7b' :: '\x7b' :: rest => (pyFormatGo d fuel rest).map ('\x7b' :: ·)
  | fuel + 1, '\x7d' :: '\x7d' :: rest => (pyFormatGo d fuel rest).map ('\x7d' :: ·)
  | fuel + 1, '\x7b' :: rest =>
    let name := rest.takeWhile (fun c => c != '\x7d')
    match rest.drop name.length with
    | '\x7d' :: r2 =>
      match d (String.mk name) with
      | some v => (pyFormatGo d fuel r2).map (fun t => v.data ++ t)
      | none => none
    | _ => none
  | _ + 1, '\x7d' :: _ => none
  | fuel + 1, c :: rest => (pyFormatGo d fuel rest).map (c :: ·)

/-- `fmt.format(**d)` on the subset the code uses. -/
def pyFormat (fmt : String) (d : String → Option String) : Option String :=
  (pyFormatGo d fmt.data.length fmt.data).map String.mk

/-- The keyword dictionary `m.groupdict()` of the link regex. -/
def linkGroupdict (proto addr port : String) : String → Option String :=
  fun n =>
    if n = "proto" then some proto
    else if n = "addr" then some addr
    else if n = "port" then some port
    else none

/-- `docker_link(value, format='\x7baddr\x7d:\x7bport\x7d')`
(`j2cli/extras/filters.py` lines 9-41): parse `value` with the link regex,
raising `ValueError` when it does not match, then format the group
dictionary with `format`. -/
def docker_link (value : String) (format : String := "{addr}:{port}") :
    Except String String :=
  match matchLink value with
  | none =>
    .error ("ValueError: The provided value does not seems to be a Docker link: "
      ++ value)
  | some (proto, addr, port) =>
    match pyFormat format (linkGroupdict proto addr port) with
    | some out => .ok out
    | none => .error "KeyError"

/-! ## `os.path` helpers used by `cli.py` -/

/-- `os.path.join(a, b)` (POSIX, two arguments). -/
def os_path_join (a b : String) : String :=
  if b.startsWith "/" then b
  else if a = "" ∨ a.endsWith "/" then a ++ b
  else a ++ "/" ++ b

/-- Index of the last occurrence of `c` in `cs`, if any (`str.rfind`). -/
def rfindIdx : List Char → Char → Option Nat
  | [], _ => none
  | x :: xs, c =>
    match rfindIdx xs c with
    | some i => some (i + 1)
    | none => if x = c then some 0 else none

/-- `str.rfind`, with `-1` for "not found" as in Python. -/
def rfindI (cs : List Char) (c : Char) : Int :=
  match rfindIdx cs c with
  | some i => (i : Int)
  | none => -1

/-- The extension part of `os.path.splitext(p)` (generic `_splitext` with
`sep='/'`, `extsep='.'`): the extension starts at the last dot, provided it
lies after the last path separator and the basename does not consist solely
of leading dots up to it. -/
def splitext_ext (p : String) : String :=
  let cs := p.data
  let sepIndex := rfindI cs '/'
  let dotIndex := rfindI cs '.'
  if sepIndex < dotIndex then
    let start := (sepIndex + 1).toNat
    let stop := dotIndex.toNat
    if ((cs.take stop).drop start).any (fun c => c != '.') then
      String.mk (cs.drop stop)
    else ""
  else ""

/-! ## Errors raised during rendering (`cli.py`) -/

/-- The exceptions that can surface from `render_template`:
`jinja2.TemplateNotFound` (raised by the loader, carrying the template path),
`jinja2.UndefinedError` (strict-undefined access, carrying the variable
name), an error propagated from importing `jinja2_custom`, and an error
raised by a filter during evaluation. -/
inductive RenderErr where
  | templateNotFound (path : String)
  | undefinedError (name : String)
  | extensionLoad (msg : String)
  | filterError (msg : String)
  deriving Repr, DecidableEq

/-! ## `FilePathLoader` (`cli.py`, lines 13-33) -/

/-- `FilePathLoader.get_source(environment, template)`: compute
`filename = os.path.join(self.cwd, template)`, then `open(template)` — note
the open uses the bare `template`, which the OS resolves against the
process's true working directory (that is what indexing `fs` by the bare
path models).  Any `IOError` is turned into `TemplateNotFound(template)`.
On success it returns `(contents, filename, uptodate)` where `uptodate`
always reports `False`.  `α` is the type of file contents. -/
def FilePathLoader_get_source {α : Type} (fs : String → Except Nat α)
    (cwd template : String) : Except RenderErr (α × String × Bool) :=
  let filename := os_path_join cwd template
  match fs template with
  | .error _ => .error (.templateNotFound template)
  | .ok contents => .ok (contents, filename, false)

/-! ## Template evaluation (the Jinja2 collaborator)

`cli.py` line 49 constructs the environment with
`undefined=jinja2.StrictUndefined`.  The template grammar itself belongs to
Jinja2; the fragment the tool exercises is modelled as a node list: literal
text, variable substitutions, and variable substitutions through a named
filter with an optional string argument. -/

/-- A parsed template node. -/
inductive Node where
  | lit (s : String)
  | var (name : String)
  | filtered (name : String) (filter : String) (arg : Option String)

/-- The `undefined=` policy of the Jinja2 environment: `strictUndefined`
raises on any access to a missing name, the default policy substitutes an
empty string when a missing name is printed. -/
inductive UndefinedPolicy where
  | strictUndefined
  | default

/-- A registry value: a filter callable taking the piped value and the
optional explicit argument. -/
def FVal : Type := String → Option String → Except String String

/-- The `docker_link` callable as registered in `env.filters`
(`cli.py` line 53); an absent argument uses the Python default. -/
def dockerLinkV : FVal := fun v arg => docker_link v (arg.getD "{addr}:{port}")

/-- A filter or test registry (`env.filters` / `env.tests`): a mapping from
name to callable. -/
def Reg : Type := String → Option FVal

/-- `env.filters` right after environment construction: the Jinja2 built-ins
are outside the model; the tool's own built-in `docker_link` is registered
at line 53, before any extension loading. -/
def builtin_filters : Reg :=
  fun n => if n = "docker_link" then some dockerLinkV else none

/-- `env.tests` right after environment construction (the tool registers no
test of its own). -/
def builtin_tests : Reg := fun _ => none

/-- Evaluate a template left to right (`Template.render(context)`).  Under
`strictUndefined` any access to a name absent from `context` aborts with
`UndefinedError` naming it; under the default policy a missing name prints
as the empty string.  A filtered access first resolves the variable, then
looks the filter up in the registry and applies it; a raising filter aborts
with its message. -/
def evalTemplate (policy : UndefinedPolicy) (reg : Reg)
    (context : String → Option String) : List Node → Except RenderErr String
  | [] => .ok ""
  | .lit s :: rest => (evalTemplate policy reg context rest).map (s ++ ·)
  | .var n :: rest =>
    match context n, policy with
    | none, .strictUndefined => .error (.undefinedError n)
    | none, .default => evalTemplate policy reg context rest
    | some v, _ => (evalTemplate policy reg context rest).map (v ++ ·)
  | .filtered n f arg :: rest =>
    match context n, policy with
    | none, .strictUndefined => .error (.undefinedError n)
    | none, .default => .error (.filterError ("no filter input: " ++ n))
    | some v, _ =>
      match reg f with
      | none => .error (.filterError ("No filter named " ++ f))
      | some fv =>
        match fv v arg with
        | .error msg => .error (.filterError msg)
        | .ok v2 => (evalTemplate policy reg context rest).map (v2 ++ ·)

/-- The variable names a template accesses, in order. -/
def varNames : List Node → List String
  | [] => []
  | .lit _ :: rest => varNames rest
  | .var n :: rest => n :: varNames rest
  | .filtered n _ _ :: rest => n :: varNames rest

/-! ## Custom filter loading (`cli.py`, lines 55-70) -/

/-- The `jinja2_custom` module's observable surface: the optional `FILTERS`
and `TESTS` attributes (`hasattr` is modelled by `Option`), each a mapping
from name to callable. -/
structure CustomModule where
  FILTERS : Option (String → Option FVal)
  TESTS : Option (String → Option FVal)

/-- `dict.update` of a registry with an optional attribute's mapping: an
entry of the update wins over a same-named existing entry; with the
attribute absent the registry is unchanged. -/
def dict_update (base : Reg) (upd : Option (String → Option FVal)) : Reg :=
  match upd with
  | none => base
  | some u => fun n => match u n with
    | some v => some v
    | none => base n

/-- Lines 57-69 of `cli.py`.  The module system state is
`mod : Option (Except String CustomModule)`: `none` models
`pkgutil.find_loader('jinja2_custom') is None` (module not discoverable, so
`custom_filters` is forced to `False`); `some (.error e)` models a
discoverable module whose import raises `e`; `some (.ok m)` an importable
module.  On successful import, `FILTERS` and then `TESTS` are merged into
the registries. -/
def load_customs (mod : Option (Except String CustomModule))
    (custom_filters : Bool) (filters tests : Reg) : Except String (Reg × Reg) :=
  match mod with
  | none => .ok (filters, tests)
  | some (.error e) =>
    if custom_filters then .error e else .ok (filters, tests)
  | some (.ok m) =>
    if custom_filters then
      .ok (dict_update filters m.FILTERS, dict_update tests m.TESTS)
    else .ok (filters, tests)

/-! ## `render_template` (`cli.py`, lines 36-75) -/

/-- `render_template(cwd, template_path, context, custom_filters)`.

State threaded explicitly: `fs` is the filesystem as seen from the
process's true working directory (file contents are parsed templates, see
the header comment), `procCwd` is `os.getcwd()`, `sysPath` is `sys.path`,
and `mod` is the `jinja2_custom` module system state.

Steps, in source order: construct the environment with the single-file
loader and `undefined=jinja2.StrictUndefined`; register `docker_link` in
`env.filters`; `sys.path.append(os.getcwd())`; probe and load
`jinja2_custom` (an import error propagates, skipping the
`sys.path.pop()`); `sys.path.pop()`; load the template through the loader
and render it, encoding the result.

Returns the outcome together with the final `sys.path`. -/
def render_template (fs : String → Except Nat (List Node)) (procCwd : String)
    (sysPath : List String) (mod : Option (Except String CustomModule))
    (cwd template_path : String) (context : String → Option String)
    (custom_filters : Bool) : Except RenderErr String × List String :=
  let sp := sysPath ++ [procCwd]
  match load_customs mod custom_filters builtin_filters builtin_tests with
  | .error e => (.error (.extensionLoad e), sp)
  | .ok (filters, _tests) =>
    let sp2 := sp.dropLast
    match FilePathLoader_get_source fs cwd template_path with
    | .error e => (.error e, sp2)
    | .ok (tmpl, _, _) =>
      (evalTemplate .strictUndefined filters context tmpl, sp2)

/-! ## `render_command` (`cli.py`, lines 78-137): format guessing and data
source selection -/

/-- The extension-to-format dictionary of lines 110-116; `none` models the
`KeyError` a lookup of any other extension raises. -/
def ext_format : String → Option String := fun e =>
  if e = ".ini" then some "ini"
  else if e = ".json" then some "json"
  else if e = ".yml" then some "yaml"
  else if e = ".yaml" then some "yaml"
  else if e = ".env" then some "env"
  else none

/-- Lines 105-116: with the format flag left at its default `"?"`, an absent
data argument (argparse default `"-"`) selects `env`, and otherwise the
format is looked up by the data path's extension (a `KeyError` escapes for
an unknown extension). -/
def guess_format (format data : String) : Except String String :=
  if format = "?" then
    if data = "-" then .ok "env"
    else
      match ext_format (splitext_ext data) with
      | some f => .ok f
      | none => .error ("KeyError: " ++ splitext_ext data)
  else .ok format

/-- The `input_data_f` value of lines 118-122: `null` is Python `None`,
`stdin` the passed-in stream, `file p` an `open(p)` handle. -/
inductive InputF where
  | null
  | stdin
  | file (path : String)
  deriving Repr, DecidableEq

/-- Lines 118-122: no input stream only for `data == '-'` with format
`env`; otherwise stdin for `'-'`, else the named file. -/
def choose_input (format data : String) : InputF :=
  if data = "-" ∧ format = "env" then .null
  else if data = "-" then .stdin
  else .file data

/-- The input-selection prefix of `render_command`: guess the format, then
choose the data stream that `read_context_data` will consume. -/
def render_command_prep (format data : String) : Except String (String × InputF) :=
  match guess_format format data with
  | .error e => .error e
  | .ok f => .ok (f, choose_input f data)

/-! ## Claim theorems -/

/-- C3: for every workingDir and templatePath, `FilePathLoader.get_source`
opens the file at the literal templatePath as resolved by the OS against the
process's actual working directory — the `cwd` argument is never applied to
the open (the outcome and contents are invariant under changing it) — while
the `filename` it returns is `os.path.join(cwd, templatePath)`. -/
theorem get_source_ignores_cwd_for_open {α : Type} (fs : String → Except Nat α)
    (cwd cwd' t : String) :
    (∀ c : α, fs t = .ok c →
      FilePathLoader_get_source fs cwd t = .ok (c, os_path_join cwd t, false)) ∧
    ((FilePathLoader_get_source fs cwd t).toOption.map Prod.fst =
      (FilePathLoader_get_source fs cwd' t).toOption.map Prod.fst) := by
  constructor
  · intro c h
    simp [FilePathLoader_get_source, h]
  · cases h : fs t <;> simp [FilePathLoader_get_source, Except.toOption, h]

/-- Witness for C3 on a concrete one-file filesystem. -/
theorem get_source_ignores_cwd_for_open_witness :
    FilePathLoader_get_source
      (fun p => if p = "conf.j2" then Except.ok "X" else Except.error 2)
      "/work" "conf.j2" =
      Except.ok ("X", os_path_join "/work" "conf.j2", false) :=
  (get_source_ignores_cwd_for_open
    (fun p => if p = "conf.j2" then Except.ok "X" else Except.error 2)
    "/work" "/elsewhere" "conf.j2").1 "X" rfl

/-- C5: every read failure of the template file (any `IOError`, whatever the
OS error code) makes the loader fail with `TemplateNotFound` carrying the
template path — never a generic I/O error — and no content is returned. -/
theorem get_source_ioerror_becomes_templateNotFound {α : Type}
    (fs : String → Except Nat α) (cwd t : String) (errno : Nat)
    (h : fs t = .error errno) :
    FilePathLoader_get_source fs cwd t = .error (.templateNotFound t) := by
  simp [FilePathLoader_get_source, h]

/-- Witness for C5 with a concrete failing filesystem (errno 13). -/
theorem get_source_ioerror_becomes_templateNotFound_witness :
    FilePathLoader_get_source (α := String) (fun _ => Except.error 13)
      "/work" "missing.j2" = Except.error (.templateNotFound "missing.j2") :=
  get_source_ioerror_becomes_templateNotFound (fun _ => Except.error 13)
    "/work" "missing.j2" 13 rfl

/-- C4: with no `jinja2_custom` module discoverable, enabling extension
loading renders exactly as disabling it (same outcome, same final
`sys.path`) and leaves the registries unchanged; with the module
discoverable but raising `e` on import, the render fails with that error
propagated. -/
theorem custom_module_absent_or_broken (fs : String → Except Nat (List Node))
    (procCwd : String) (sysPath : List String) (cwd tpath : String)
    (ctx : String → Option String) :
    (render_template fs procCwd sysPath none cwd tpath ctx true =
      render_template fs procCwd sysPath none cwd tpath ctx false) ∧
    (load_customs none true builtin_filters builtin_tests =
      .ok (builtin_filters, builtin_tests)) ∧
    (∀ e, (render_template fs procCwd sysPath (some (.error e)) cwd tpath ctx
      true).1 = .error (.extensionLoad e)) :=
  ⟨rfl, rfl, fun _ => rfl⟩

/-- C9: `render_template` appends the process working directory to
`sys.path`; when the custom module import raises, the call fails with that
entry still appended (the `pop` is skipped), while a successful or skipped
load pops it back off. -/
theorem sys_path_not_restored_on_import_error
    (fs : String → Except Nat (List Node)) (procCwd : String)
    (sysPath : List String) (mod : Option (Except String CustomModule))
    (cwd tpath : String) (ctx : String → Option String) (e : String) :
    (mod = some (.error e) →
      render_template fs procCwd sysPath mod cwd tpath ctx true =
        (.error (.extensionLoad e), sysPath ++ [procCwd])) ∧
    ((render_template fs procCwd sysPath none cwd tpath ctx true).2 =
      sysPath) ∧
    (∀ m, mod = some (.ok m) →
      (render_template fs procCwd sysPath mod cwd tpath ctx true).2 =
        sysPath) := by
  refine ⟨fun h => ?_, ?_, fun m h => ?_⟩
  · subst h; rfl
  · simp only [render_template, load_customs]
    split <;> simp [List.dropLast_concat]
  · subst h
    have hl : load_customs (some (.ok m)) true builtin_filters builtin_tests =
        .ok (dict_update builtin_filters m.FILTERS,
          dict_update builtin_tests m.TESTS) := rfl
    simp only [render_template, hl]
    split <;> simp [List.dropLast_concat]

/-- Witness for C9: a broken module leaves the appended entry on
`sys.path`. -/
theorem sys_path_not_restored_on_import_error_witness :
    render_template (fun _ => Except.error 2) "/proc" ["lib"]
      (some (.error "boom")) "/w" "t.j2" (fun _ => none) true =
      (.error (.extensionLoad "boom"), ["lib", "/proc"]) :=
  (sys_path_not_restored_on_import_error (fun _ => Except.error 2) "/proc"
    ["lib"] (some (.error "boom")) "/w" "t.j2" (fun _ => none) "boom").1 rfl

/-- C2 counterexample: with the data source absent (argparse default `"-"`)
and the format explicitly chosen as `json`, `render_command` raises no
ConfigError — it proceeds to read the context from stdin. -/
theorem absent_data_nonenv_reads_stdin_counterexample :
    render_command_prep "json" "-" = .ok ("json", .stdin) := rfl

/-- C2 amended: an absent data source is legal for every format: with
format `env` (explicit or inferred) no input stream is opened and the
context comes from the environment, and with any other explicitly chosen
format the input is read from stdin; no ConfigError is ever raised. -/
theorem absent_data_nonenv_reads_stdin (f : String) (hq : f ≠ "?")
    (he : f ≠ "env") :
    render_command_prep f "-" = .ok (f, .stdin) ∧
    render_command_prep "env" "-" = .ok ("env", .null) ∧
    render_command_prep "?" "-" = .ok ("env", .null) := by
  refine ⟨?_, rfl, rfl⟩
  simp [render_command_prep, guess_format, choose_input, hq, he]

/-- Witness for C2's amended statement at format `json`. -/
theorem absent_data_nonenv_reads_stdin_witness :
    render_command_prep "json" "-" = .ok ("json", .stdin) ∧
    render_command_prep "env" "-" = .ok ("env", .null) ∧
    render_command_prep "?" "-" = .ok ("env", .null) :=
  absent_data_nonenv_reads_stdin "json" (by decide) (by decide)

/-- C8: with no explicit format, the format is inferred from the data
source's extension by exactly the mapping `.ini→ini`, `.json→json`,
`.yml→yaml`, `.yaml→yaml`, `.env→env` (anything else raising `KeyError`),
and an absent data source selects `env`. -/
theorem format_guessing_mapping :
    (∀ e v, ext_format e = some v ↔
      ((e = ".ini" ∧ v = "ini") ∨ (e = ".json" ∧ v = "json") ∨
        (e = ".yml" ∧ v = "yaml") ∨ (e = ".yaml" ∧ v = "yaml") ∨
        (e = ".env" ∧ v = "env"))) ∧
    guess_format "?" "-" = .ok "env" ∧
    (∀ d, d ≠ "-" → guess_format "?" d =
      match ext_format (splitext_ext d) with
      | some f => .ok f
      | none => .error ("KeyError: " ++ splitext_ext d)) := by
  refine ⟨fun e v => ?_, rfl, fun d hd => ?_⟩
  · unfold ext_format
    split_ifs with h1 h2 h3 h4 h5 <;> simp_all [eq_comm]
  · simp [guess_format, hd]

/-- Witness for C8: a `.json` data path infers format `json`. -/
theorem format_guessing_mapping_witness :
    guess_format "?" "data.json" = .ok "json" := by
  have h := format_guessing_mapping.2.2 "data.json" (by decide)
  simpa using h

/-- C7: `docker_link` parses a `scheme://host:port`-shaped value into the
named parts proto/addr/port and returns the caller-supplied format string
formatted with them (`'\x7bport\x7d'` on `'tcp://10.0.0.1:5432'` yields
`'5432'`), and raises `ValueError` on any value the link regex rejects,
such as `'not-a-link'`. -/
theorem docker_link_parses_and_formats :
    docker_link "tcp://10.0.0.1:5432" "{port}" = .ok "5432" ∧
    matchLink "tcp://10.0.0.1:5432" = some ("tcp", "10.0.0.1", "5432") ∧
    matchLink "not-a-link" = none ∧
    (∀ value fmt, matchLink value = none →
      docker_link value fmt = .error
        ("ValueError: The provided value does not seems to be a Docker link: "
          ++ value)) ∧
    (∀ value proto addr port fmt out,
      matchLink value = some (proto, addr, port) →
      pyFormat fmt (linkGroupdict proto addr port) = some out →
      docker_link value fmt = .ok out) := by
  refine ⟨rfl, rfl, rfl, fun value fmt h => ?_, fun value proto addr port fmt out h hf => ?_⟩
  · simp [docker_link, h]
  · simp [docker_link, h, hf]

/-- Witness for C7: the non-matching value raises `ValueError`. -/
theorem docker_link_parses_and_formats_witness :
    docker_link "not-a-link" "{addr}:{port}" = .error
      "ValueError: The provided value does not seems to be a Docker link: not-a-link" :=
  docker_link_parses_and_formats.2.2.2.1 "not-a-link" "{addr}:{port}" rfl

/-- Inversion: a mapped `Except` that is `ok` came from an `ok`. -/
theorem except_map_ok_inv {α β ε : Type} {g : α → β} {e : Except ε α} {b : β}
    (h : e.map g = .ok b) : ∃ a, e = .ok a ∧ g a = b := by
  cases e with
  | error x => simp [Except.map] at h
  | ok a => exact ⟨a, rfl, by simpa [Except.map] using h⟩

/-- Under the strict-undefined policy, once the nodes before a variable
access evaluate successfully, an access to a name absent from the context
aborts the whole evaluation with `UndefinedError` naming it, whatever
follows. -/
theorem evalTemplate_ok_append_var_none (reg : Reg) (ctx : String → Option String)
    (pre : List Node) (n : String) (post : List Node) (hn : ctx n = none) :
    ∀ s₀, evalTemplate .strictUndefined reg ctx pre = .ok s₀ →
      evalTemplate .strictUndefined reg ctx (pre ++ .var n :: post) =
        .error (.undefinedError n) := by
  induction pre with
  | nil =>
    intro s₀ _
    simp [evalTemplate, hn]
  | cons node rest ih =>
    intro s₀ hpre
    rw [List.cons_append]
    cases node with
    | lit s =>
      simp only [evalTemplate] at hpre ⊢
      obtain ⟨t, ht, -⟩ := except_map_ok_inv hpre
      rw [ih t ht]; rfl
    | var m =>
      simp only [evalTemplate] at hpre ⊢
      cases hcm : ctx m with
      | none => simp only [hcm] at hpre; simp at hpre
      | some v =>
        simp only [hcm] at hpre ⊢
        obtain ⟨t, ht, -⟩ := except_map_ok_inv hpre
        rw [ih t ht]; rfl
    | filtered m f arg =>
      simp only [evalTemplate] at hpre ⊢
      cases hcm : ctx m with
      | none => simp only [hcm] at hpre; simp at hpre
      | some v =>
        simp only [hcm] at hpre ⊢
        cases hrf : reg f with
        | none => simp only [hrf] at hpre; simp at hpre
        | some fv =>
          simp only [hrf] at hpre ⊢
          cases hfv : fv v arg with
          | error msg => simp only [hfv] at hpre; simp at hpre
          | ok v2 =>
            simp only [hfv] at hpre ⊢
            obtain ⟨t, ht, -⟩ := except_map_ok_inv hpre
            rw [ih t ht]; rfl

/-- C1: a render whose template accesses a name absent from the context —
here, after a prefix that renders fine — aborts with `UndefinedError`
identifying that name; no default or empty-string value is substituted and
no partial output is produced (the result is the error alone, not the
prefix's value). -/
theorem render_strict_undefined_aborts (fs : String → Except Nat (List Node))
    (procCwd : String) (sysPath : List String) (cwd tpath : String)
    (ctx : String → Option String) (pre post : List Node) (n : String)
    (s₀ : String)
    (hfs : fs tpath = .ok (pre ++ .var n :: post))
    (hpre : evalTemplate .strictUndefined builtin_filters ctx pre = .ok s₀)
    (hn : ctx n = none) :
    (render_template fs procCwd sysPath none cwd tpath ctx false).1 =
      .error (.undefinedError n) := by
  simp only [render_template, load_customs, FilePathLoader_get_source, hfs]
  exact evalTemplate_ok_append_var_none builtin_filters ctx pre n post hn s₀ hpre

/-- Witness for C1: the spec's own example — template
`(( name ))(( missing ))` against the context `(name -> hi)` renders to
`UndefinedError` naming `missing`, not to `"hi"`. -/
theorem render_strict_undefined_aborts_witness :
    (render_template
      (fun p => if p = "t.j2" then Except.ok [.var "name", .var "missing"]
        else Except.error 2)
      "/proc" [] none "/w" "t.j2"
      (fun v => if v = "name" then some "hi" else none) false).1 =
      .error (.undefinedError "missing") :=
  render_strict_undefined_aborts
    (fun p => if p = "t.j2" then Except.ok [.var "name", .var "missing"]
      else Except.error 2)
    "/proc" [] "/w" "t.j2"
    (fun v => if v = "name" then some "hi" else none)
    [.var "name"] [] "missing" "hi" rfl rfl rfl

/-- C6: importing an extension module merges every entry of its `FILTERS`
and of its `TESTS` into the respective registry, a merged entry replacing a
same-named existing one and all other entries left as registered at
construction — where `docker_link` is already present before the merge. -/
theorem customs_merge_overrides (m : CustomModule)
    (F T : String → Option FVal)
    (hF : m.FILTERS = some F) (hT : m.TESTS = some T) :
    ∃ f t, load_customs (some (.ok m)) true builtin_filters builtin_tests =
        .ok (f, t) ∧
      (∀ n v, F n = some v → f n = some v) ∧
      (∀ n, F n = none → f n = builtin_filters n) ∧
      (∀ n v, T n = some v → t n = some v) ∧
      (∀ n, T n = none → t n = builtin_tests n) ∧
      builtin_filters "docker_link" = some dockerLinkV := by
  refine ⟨dict_update builtin_filters m.FILTERS,
    dict_update builtin_tests m.TESTS, rfl, ?_, ?_, ?_, ?_, rfl⟩
  · intro n v hv; simp [dict_update, hF, hv]
  · intro n hv; simp [dict_update, hF, hv]
  · intro n v hv; simp [dict_update, hT, hv]
  · intro n hv; simp [dict_update, hT, hv]

/-- A concrete `FILTERS` mapping for C6's witness: it overrides the
built-in `docker_link` with the identity filter. -/
def sampleFILTERS : String → Option FVal := fun n =>
  if n = "docker_link" then some (fun v _ => Except.ok v) else none

/-- A concrete `TESTS` mapping for C6's witness: one test named `odd`. -/
def sampleTESTS : String → Option FVal := fun n =>
  if n = "odd" then some (fun v _ => Except.ok v) else none

/-- A concrete extension module for C6's witness. -/
def sampleCustomModule : CustomModule where
  FILTERS := some sampleFILTERS
  TESTS := some sampleTESTS

/-- Witness for C6 at `sampleCustomModule`. -/
theorem customs_merge_overrides_witness :
    ∃ f t, load_customs (some (.ok sampleCustomModule)) true builtin_filters
        builtin_tests = .ok (f, t) ∧
      (∀ n v, sampleFILTERS n = some v → f n = some v) ∧
      (∀ n, sampleFILTERS n = none → f n = builtin_filters n) ∧
      (∀ n v, sampleTESTS n = some v → t n = some v) ∧
      (∀ n, sampleTESTS n = none → t n = builtin_tests n) ∧
      builtin_filters "docker_link" = some dockerLinkV :=
  customs_merge_overrides sampleCustomModule sampleFILTERS sampleTESTS rfl rfl

/-- C10 counterexample: on `'tcp://a:b:'` the greedy backtracking match
yields port `'b:'`, which contains `':'` and is not the substring after the
final `':'` of the input (that substring is empty). -/
theorem docker_link_port_colon_counterexample :
    matchLink "tcp://a:b:" = some ("tcp", "a", "b:") ∧
    ':' ∈ "b:".data ∧
    docker_link "tcp://a:b:" = .ok "a:b:" :=
  ⟨rfl, by decide, rfl⟩

/-! ### Greedy-match analysis for C10's amended statement -/

/-- On a newline-free list everything is a `.`-character. -/
theorem takeWhile_dotc_of_noNL (cs : List Char) (h : ∀ c ∈ cs, c ≠ '\n') :
    cs.takeWhile dotc = cs :=
  List.takeWhile_eq_self_iff.mpr fun c hc => by
    simpa [dotc] using h c hc

/-- On a nonempty newline-free list the port/end pattern consumes
everything. -/
theorem matchPortEnd_of_noNL (r : List Char) (h : ∀ c ∈ r, c ≠ '\n')
    (hne : r ≠ []) : matchPortEnd r = some r := by
  simp [matchPortEnd, takeWhile_dotc_of_noNL r h, hne]

/-- Inversion of `matchPortEnd` on newline-free input. -/
theorem matchPortEnd_some_noNL {r p : List Char} (h : ∀ c ∈ r, c ≠ '\n')
    (hs : matchPortEnd r = some p) : p = r ∧ r ≠ [] := by
  rcases eq_or_ne r [] with rfl | hne
  · simp [matchPortEnd] at hs
  · rw [matchPortEnd_of_noNL r h hne] at hs
    exact ⟨(Option.some.inj hs).symm, hne⟩

/-- The addr-backtracking succeeds at offset `m` when a `':'` sits there and
the port/end pattern matches what follows. -/
def stepOk (cs : List Char) (m : Nat) : Prop :=
  ∃ r p, cs.drop m = ':' :: r ∧ matchPortEnd r = some p

/-- Soundness of the greedy addr backtracking: a success is a split at some
positive offset `k ≤ n`, and — greediness — no larger offset within the
budget admits a match. -/
theorem matchAddrPortGo_sound (cs : List Char) :
    ∀ n a p, matchAddrPortGo cs n = some (a, p) →
      ∃ k, 0 < k ∧ k ≤ n ∧ a = cs.take k ∧
        (∃ r, cs.drop k = ':' :: r ∧ matchPortEnd r = some p) ∧
        ∀ m, k < m → m ≤ n → ¬ stepOk cs m := by
  intro n
  induction n with
  | zero => intro a p h; simp [matchAddrPortGo] at h
  | succ n ih =>
    intro a p h
    simp only [matchAddrPortGo] at h
    split at h
    · rename_i r heq
      split at h
      · rename_i q hq
        simp only [Option.some.injEq, Prod.mk.injEq] at h
        obtain ⟨rfl, rfl⟩ := h.symm
        exact ⟨n + 1, Nat.succ_pos n, Nat.le_refl _, rfl, ⟨r, heq, hq⟩,
          fun m h1 h2 => absurd (Nat.lt_of_lt_of_le h1 h2) (Nat.lt_irrefl _)⟩
      · rename_i hq
        obtain ⟨k, hk0, hkn, ha, hr, hmax⟩ := ih a p h
        refine ⟨k, hk0, Nat.le_succ_of_le hkn, ha, hr, fun m hm1 hm2 => ?_⟩
        rcases Nat.eq_or_lt_of_le hm2 with rfl | hlt
        · rintro ⟨r', p', hdropm, hpe⟩
          rw [heq] at hdropm
          obtain rfl : r = r' := (List.cons.inj hdropm).2
          exact absurd hpe (by simp [hq])
        · exact hmax m hm1 (Nat.lt_succ_iff.mp hlt)
    · rename_i heq
      obtain ⟨k, hk0, hkn, ha, hr, hmax⟩ := ih a p h
      refine ⟨k, hk0, Nat.le_succ_of_le hkn, ha, hr, fun m hm1 hm2 => ?_⟩
      rcases Nat.eq_or_lt_of_le hm2 with rfl | hlt
      · rintro ⟨r', p', hdropm, hpe⟩
        exact heq r' hdropm
      · exact hmax m hm1 (Nat.lt_succ_iff.mp hlt)

/-- Decomposition soundness of the proto backtracking. -/
theorem matchProtoGo_sound (cs : List Char) :
    ∀ n pr a p, matchProtoGo cs n = some (pr, a, p) →
      ∃ k r, cs.drop k = ':' :: '/' :: '/' :: r ∧
        matchAddrPort r = some (a, p) := by
  intro n
  induction n with
  | zero => intro pr a p h; simp [matchProtoGo] at h
  | succ n ih =>
    intro pr a p h
    simp only [matchProtoGo] at h
    split at h
    · rename_i r heq
      split at h
      · rename_i a0 p0 hap
        simp only [Option.some.injEq, Prod.mk.injEq] at h
        obtain ⟨-, h2, h3⟩ := h
        exact ⟨n + 1, r, heq, by rw [← h2, ← h3]; exact hap⟩
      · exact ih pr a p h
    · exact ih pr a p h

/-- When `cs.drop m` is a nonempty list, the last elements agree. -/
theorem getLast?_of_drop (cs l : List Char) (m : Nat) (hd : cs.drop m = l)
    (hne : l ≠ []) : cs.getLast? = l.getLast? := by
  conv_lhs => rw [← List.take_append_drop m cs, hd]
  exact List.getLast?_append_of_ne_nil _ hne

/-- The heart of C10's amendment: on newline-free input not ending in `':'`,
a successful addr/port match splits at the LAST `':'` — the port part is the
substring after the final `':'` and contains no `':'`. -/
theorem matchAddrPort_after_last_colon (cs a p : List Char)
    (hnl : ∀ c ∈ cs, c ≠ '\n') (hlast : cs.getLast? ≠ some ':')
    (h : matchAddrPort cs = some (a, p)) :
    cs = a ++ ':' :: p ∧ ':' ∉ p := by
  unfold matchAddrPort at h
  rw [takeWhile_dotc_of_noNL cs hnl] at h
  obtain ⟨k, hk0, hkn, ha, ⟨r, hdrop, hpe⟩, hmax⟩ :=
    matchAddrPortGo_sound cs cs.length a p h
  have hnlr : ∀ c ∈ r, c ≠ '\n' := fun c hc =>
    hnl c (List.drop_subset k cs (by rw [hdrop]; exact List.mem_cons_of_mem _ hc))
  obtain ⟨rfl, hrne⟩ := matchPortEnd_some_noNL hnlr hpe
  have hsplit : cs = a ++ ':' :: p := by
    conv_lhs => rw [← List.take_append_drop k cs]
    rw [hdrop, ha]
  have hlen : cs.length = k + 1 + p.length := by
    have hk : a.length = k := by
      rw [ha]; exact List.length_take_of_le hkn
    rw [hsplit]; simp [hk]; omega
  refine ⟨hsplit, fun hcolon => ?_⟩
  obtain ⟨i, hi, hget⟩ := List.mem_iff_getElem.mp hcolon
  have hcs1 : cs.drop (k + 1) = p := by
    have h1 : (cs.drop k).drop 1 = cs.drop (k + 1) := List.drop_drop 1 k cs
    rw [← h1, hdrop]
    rfl
  have hm : cs.drop (k + 1 + i) = ':' :: p.drop (i + 1) := by
    have h2 : (cs.drop (k + 1)).drop i = cs.drop (k + 1 + i) :=
      List.drop_drop i (k + 1) cs
    rw [← h2, hcs1, List.drop_eq_getElem_cons hi, hget]
  have hne2 : p.drop (i + 1) ≠ [] := by
    intro h0
    rw [h0] at hm
    have hl := getLast?_of_drop cs [':'] (k + 1 + i) hm (by simp)
    simp at hl
    exact hlast hl
  have hpe2 : matchPortEnd (p.drop (i + 1)) = some (p.drop (i + 1)) :=
    matchPortEnd_of_noNL _ (fun c hc => hnlr c (List.drop_subset _ _ hc)) hne2
  exact hmax (k + 1 + i) (by omega) (by omega)
    ⟨p.drop (i + 1), p.drop (i + 1), hm, hpe2⟩

/-- The default format string `'\x7baddr\x7d:\x7bport\x7d'` renders as the
addr and port parts joined by a colon. -/
theorem pyFormat_default (P A Po : String) :
    pyFormat "{addr}:{port}" (linkGroupdict P A Po) = some (A ++ ":" ++ Po) := by
  have h1 : pyFormat "{addr}:{port}" (linkGroupdict P A Po) =
      some (String.mk (A.data ++ ':' :: (Po.data ++ []))) := rfl
  have h2 : A ++ ":" ++ Po = String.mk ((A.data ++ [':']) ++ Po.data) := rfl
  rw [h1, h2]
  congr 1
  simp

/-- C10 amended: applied without an explicit format argument, the link
filter uses the default `'\x7baddr\x7d:\x7bport\x7d'` and returns the
address and port joined by a colon; on inputs containing no newline and not
ending in `':'`, greedy matching of the address makes the port part exactly
the substring after the final `':'` of the input, so it never contains
`':'` (inputs ending in `':'` escape this, see the counterexample). -/
theorem docker_link_default_format_port (value proto addr port : String)
    (hnl : ∀ c ∈ value.data, c ≠ '\n')
    (hlast : value.data.getLast? ≠ some ':')
    (h : matchLink value = some (proto, addr, port)) :
    docker_link value = .ok (addr ++ ":" ++ port) ∧
    ∃ b, value.data = b ++ ':' :: port.data ∧ ':' ∉ port.data := by
  have hml := h
  unfold matchLink at h
  split at h
  case h_2 => exact absurd h (by simp)
  case h_1 pr a po heq =>
    simp only [Option.some.injEq, Prod.mk.injEq] at h
    obtain ⟨h1, h2, h3⟩ := h
    subst h1; subst h2; subst h3
    obtain ⟨k, r, hdrop, hap⟩ := matchProtoGo_sound value.data _ pr a po heq
    have hrne : r ≠ [] := by
      intro h0
      rw [h0] at hap
      simp [matchAddrPort, matchAddrPortGo] at hap
    have hsub : ∀ c ∈ r, c ≠ '\n' := fun c hc =>
      hnl c (List.drop_subset _ _ (by rw [hdrop]; simp [hc]))
    have hlast' : r.getLast? ≠ some ':' := by
      have hg := getLast?_of_drop value.data _ k hdrop (by simp)
      have hg2 : (':' :: '/' :: '/' :: r).getLast? = r.getLast? :=
        List.getLast?_append_of_ne_nil [':', '/', '/'] hrne
      rw [hg, hg2] at hlast
      exact hlast
    obtain ⟨hsplit, hnotin⟩ := matchAddrPort_after_last_colon r a po hsub hlast' hap
    constructor
    · unfold docker_link
      rw [hml]
      dsimp only
      rw [pyFormat_default]
    · refine ⟨value.data.take k ++ ':' :: '/' :: '/' :: a, ?_, hnotin⟩
      conv_lhs => rw [← List.take_append_drop k value.data, hdrop, hsplit]
      simp

/-- Witness for C10's amended statement at `'tcp://10.0.0.1:5432'`. -/
theorem docker_link_default_format_port_witness :
    docker_link "tcp://10.0.0.1:5432" = .ok "10.0.0.1:5432" ∧
    ∃ b, "tcp://10.0.0.1:5432".data = b ++ ':' :: "5432".data ∧
      ':' ∉ "5432".data :=
  docker_link_default_format_port "tcp://10.0.0.1:5432" "tcp" "10.0.0.1" "5432"
    (by decide) (by decide) rfl

end J2cli
